import Mathlib

/-!
Verification of the rental-listing explorer's view-synchronization layer.

Shallow embedding of:
- `FilterManager` (filters.js / map.js combined module): `_parseCity`, `_parseZip`,
  `applyFilters`, `getPassingIds`, the filter state object and `_resetAll`,
  and the debounced `_emitSearchChange`;
- `MapManager.getVisibleListings` (map.js);
- `CardRenderer.render` (cards.js): sorting of cards by price;
- `haversineDistanceMi` and `fetchListings` (app.js).

JavaScript strings are Lean `String`s (reasoned about via their `List Char`
data); numeric listing fields are `Nat` following the data model (price is a
positive currency amount, bedrooms/bathrooms/sqft are counts); the optional
`sqft` is `Option Nat` (`none` = JS `null`); the `Infinity` upper bounds of the
price and sqft ranges are the `none` case of `Option Nat`.
-/

namespace DemoMap

/-- JS `String.prototype.includes`: `strContains s pat` is true iff `pat`
occurs contiguously inside `s`. -/
def strContains (s pat : String) : Bool := decide (pat.data <:+: s.data)

/-- JS `String.prototype.toLowerCase` (ASCII case folding). -/
def lowerStr (s : String) : String := ⟨s.data.map Char.toLower⟩

/-- Whitespace characters removed by JS `String.prototype.trim`. -/
def isSpace (c : Char) : Bool := c = ' ' || c = '\t' || c = '\n' || c = '\r'

/-- JS `String.prototype.trim`: drop whitespace from both ends. -/
def trimStr (s : String) : String := ⟨(s.data.dropWhile isSpace).rdropWhile isSpace⟩

/-- JS `address.split(',')` (split on the comma character, keeping empty
segments, `[""]` on the empty string). -/
def splitOnComma : List Char → List (List Char)
  | [] => [[]]
  | c :: cs =>
    if c = ',' then [] :: splitOnComma cs
    else
      match splitOnComma cs with
      | [] => [[c]]
      | h :: t => (c :: h) :: t

/-- FilterManager `_parseCity` (filters.js): second comma-delimited segment of
the address, trimmed; empty string when there are fewer than two segments. -/
def parseCity (a : String) : String :=
  if 2 ≤ (splitOnComma a.data).length then trimStr ⟨(splitOnComma a.data).getD 1 []⟩
  else ""

/-- FilterManager `_parseZip` (filters.js): `address.match(/\d{5}$/)` — the
last five characters when they are all digits, else the empty string. -/
def parseZip (a : String) : String :=
  if 5 ≤ a.data.length ∧ (a.data.drop (a.data.length - 5)).all Char.isDigit then
    ⟨a.data.drop (a.data.length - 5)⟩
  else ""

/-- A rental listing as held in memory after `fetchListings` parsing (app.js):
price in whole dollars, `sqft = none` when the API field was null/missing. -/
structure Listing where
  id : Nat
  title : String
  price : Nat
  address : String
  bedrooms : Nat
  bathrooms : Nat
  sqft : Option Nat
  lat : Rat
  lng : Rat
  type : String
  amenities : List String
  deriving DecidableEq

/-- FilterManager `this.state`: the filter parameters. `priceMax`/`sqftMax`
are `none` for the JS `Infinity` default. The multi-valued `types` and
`amenities` JS `Set`s are lists queried only by membership. -/
structure FilterState where
  searchQuery : String
  types : List String
  minBeds : Nat
  minBaths : Nat
  priceMin : Nat
  priceMax : Option Nat
  sqftMin : Nat
  sqftMax : Option Nat
  amenities : List String
  deriving DecidableEq

/-- JS numeric coercion of a possibly-null sqft in a comparison: `null`
compares as `0` (`ToNumber(null) = +0`). -/
def sqftNum (l : Listing) : Nat := l.sqft.getD 0

/-- JS `v > bound` where `bound` may be `Infinity` (`none`): always false
against `Infinity`. -/
def exceedsMax (v : Nat) : Option Nat → Bool
  | none => false
  | some b => decide (b < v)

/-- The negation of `exceedsMax`, as a proposition: `v` is within the
(possibly infinite) upper bound. -/
def withinMax (v : Nat) : Option Nat → Prop
  | none => True
  | some b => v ≤ b

instance (v : Nat) : (m : Option Nat) → Decidable (withinMax v m)
  | none => isTrue trivial
  | some b => inferInstanceAs (Decidable (v ≤ b))

/-- Guard of the search branch of `applyFilters` (filters.js lines 1014–1019):
a non-empty stored query that matches neither the lower-cased parsed city,
nor the raw parsed zip, nor the lower-cased full address. -/
def searchGuard (F : FilterState) (l : Listing) : Bool :=
  (F.searchQuery != "") &&
    !(strContains (lowerStr (parseCity l.address)) F.searchQuery ||
      strContains (parseZip l.address) F.searchQuery ||
      strContains (lowerStr l.address) F.searchQuery)

/-- Guard of the category branch (filters.js line 1021): a non-empty type set
not containing the listing's type. -/
def typeGuard (F : FilterState) (l : Listing) : Bool :=
  (F.types.length != 0) && !(F.types.contains l.type)

/-- Guard of the amenity branch (filters.js lines 1028–1032): a non-empty
required-amenity set with at least one member missing on the listing. -/
def amenityGuard (F : FilterState) (l : Listing) : Bool :=
  (F.amenities.length != 0) && F.amenities.any (fun a => !(l.amenities.contains a))

/-- FilterManager `applyFilters` predicate body (filters.js lines 1012–1035):
the sequence of early-return guards, one per filter dimension. The stored
`searchQuery` is compared against the lower-cased city, the raw zip and the
lower-cased address, exactly as in the source. -/
def passes (F : FilterState) (l : Listing) : Bool :=
  if searchGuard F l then false
  else if typeGuard F l then false
  else if decide (l.bedrooms < F.minBeds) then false
  else if decide (l.bathrooms < F.minBaths) then false
  else if decide (l.price < F.priceMin) then false
  else if exceedsMax l.price F.priceMax then false
  else if decide (sqftNum l < F.sqftMin) then false
  else if exceedsMax (sqftNum l) F.sqftMax then false
  else if amenityGuard F l then false
  else true

/-- FilterManager `applyFilters`: keep exactly the listings passing every
guard. -/
def applyFilters (F : FilterState) (listings : List Listing) : List Listing :=
  listings.filter (passes F)

/-- FilterManager `getPassingIds`: ids of the listings of the full collection
that pass the current filters (JS builds a `Set`; only membership is used). -/
def getPassingIds (F : FilterState) (allListings : List Listing) : List Nat :=
  (applyFilters F allListings).map (fun l => l.id)

/-- MapManager `getVisibleListings` (map.js lines 357–364): the listings whose
coordinates the current viewport bounds contain. The SDK's
`bounds.contains` test is an opaque parameter. -/
def getVisibleListings (boundsContains : Rat → Rat → Bool)
    (markers : List Listing) : List Listing :=
  markers.filter (fun l => boundsContains l.lat l.lng)

/-- The filter state installed by the FilterManager constructor. -/
def initialState : FilterState := ⟨"", [], 0, 0, 0, none, 0, none, []⟩

/-- The filter state installed by `_resetAll` (filters.js lines 899–910). -/
def resetAllState : FilterState := ⟨"", [], 0, 0, 0, none, 0, none, []⟩

/-- The seven predicate rules of spec section 4.2, stated as one simultaneous
conjunction over a listing and a filter state. Rule 1 matches the lower-cased
query case-insensitively (against the lower-cased city and address and the
all-digit zip), as the code does; the FilterManager always stores the search
text already lower-cased (input handler, suggestion selection, reset). -/
def rulesPass (F : FilterState) (l : Listing) : Prop :=
  (F.searchQuery ≠ "" →
    (strContains (lowerStr (parseCity l.address)) (lowerStr F.searchQuery) = true ∨
     strContains (parseZip l.address) (lowerStr F.searchQuery) = true ∨
     strContains (lowerStr l.address) (lowerStr F.searchQuery) = true)) ∧
  (F.types ≠ [] → l.type ∈ F.types) ∧
  F.minBeds ≤ l.bedrooms ∧
  F.minBaths ≤ l.bathrooms ∧
  (F.priceMin ≤ l.price ∧ withinMax l.price F.priceMax) ∧
  (F.sqftMin ≤ sqftNum l ∧ withinMax (sqftNum l) F.sqftMax) ∧
  (F.amenities ≠ [] → ∀ a ∈ F.amenities, a ∈ l.amenities)

/-- A sample listing (the first record of the demo data set, listings.js). -/
def demoListing : Listing :=
  ⟨1, "Modern Studio Apartment", 1350, "9145 Reseda Blvd, Northridge, CA 91324",
   0, 1, some 425, 0, 0, "Studio", ["Parking", "Laundry", "A/C"]⟩

/-- A filter state with only a (lower-cased) search query set, as produced by
typing in the search bar with all other controls at their defaults. -/
def searchOnly (q : String) : FilterState := ⟨q, [], 0, 0, 0, none, 0, none, []⟩

/-- CardRenderer `render` card order (cards.js line 52):
`[...listings].sort((a, b) => a.price - b.price)`. The numeric comparator
orders by ascending price, and ECMAScript specifies `Array.prototype.sort`
as stable; modelled by the stable `List.mergeSort` with the same key. -/
def renderOrder (listings : List Listing) : List Listing :=
  listings.mergeSort (fun a b => decide (a.price ≤ b.price))

/-- Two more sample listings (second record of the demo data set, and a
price-tie companion) for concrete evaluation of the card order. -/
def demoListing2 : Listing :=
  ⟨2, "Spacious 2BR Near Campus", 2100, "18345 Plummer St, Northridge, CA 91325",
   2, 2, some 900, 0, 0, "Apartment", []⟩

def demoListingTie : Listing :=
  ⟨3, "Cozy Studio", 1350, "8820 Lindley Ave, Northridge, CA 91325",
   0, 1, some 400, 0, 0, "Studio", []⟩

/-- State of the single debounce timer slot of `_emitSearchChange`
(filters.js lines 1061–1066): the pending deadline (if a timer is scheduled),
the current `state.searchQuery`, and the callbacks fired so far, each with
its firing time and the query value it reads. -/
structure DebounceState where
  pending : Option Nat
  query : String
  fired : List (Nat × String)
  deriving DecidableEq

/-- One text-input event at time `t` with (lower-cased) value `v`: a pending
timer whose deadline has already passed fired on the event loop before this
event (reading the query set by the previous event); otherwise
`clearTimeout` cancels it. The handler then stores the new query and
`setTimeout` schedules the single slot for `t + 400`. -/
def debounceStep (s : DebounceState) (t : Nat) (v : String) : DebounceState :=
  match s.pending with
  | none => ⟨some (t + 400), v, s.fired⟩
  | some d =>
    if d ≤ t then ⟨some (t + 400), v, s.fired ++ [(d, s.query)]⟩
    else ⟨some (t + 400), v, s.fired⟩

/-- Run a time-ordered trace of input events through the debounce mechanism,
starting with no timer pending; after the last event the surviving timer
fires at its deadline. Returns the fired callbacks in order. -/
def runDebounce (events : List (Nat × String)) : List (Nat × String) :=
  match events.foldl (fun s e => debounceStep s e.1 e.2) ⟨none, "", []⟩ with
  | ⟨none, _, fired⟩ => fired
  | ⟨some d, q, fired⟩ => fired ++ [(d, q)]

/-- Degrees to radians (`toRad` inside `haversineDistanceMi`, app.js). -/
noncomputable def toRad (deg : ℝ) : ℝ := deg * Real.pi / 180

/-- JS `Math.atan2(y, x)`: the argument of the complex number `x + y·i`. -/
noncomputable def atan2 (y x : ℝ) : ℝ := Complex.arg ⟨x, y⟩

/-- The intermediate `a` of `haversineDistanceMi` (app.js lines 59–61). -/
noncomputable def haversineA (lat1 lng1 lat2 lng2 : ℝ) : ℝ :=
  Real.sin (toRad (lat2 - lat1) / 2) ^ 2 +
    Real.cos (toRad lat1) * Real.cos (toRad lat2) *
      Real.sin (toRad (lng2 - lng1) / 2) ^ 2

/-- `haversineDistanceMi` (app.js lines 54–63): great-circle distance in
miles between two degree coordinates, Earth radius 3958.8 mi. The JS floats
are modelled as reals. -/
noncomputable def haversineDistanceMi (lat1 lng1 lat2 lng2 : ℝ) : ℝ :=
  3958.8 * 2 *
    atan2 (Real.sqrt (haversineA lat1 lng1 lat2 lng2))
      (Real.sqrt (1 - haversineA lat1 lng1 lat2 lng2))

/-- A listing as delivered by `GET /api/listings/` after JSON decoding. The
API serializes numeric fields as strings; this models the successfully
parsed numeric values (`parseFloat`/`parseInt` on well-formed input), with
`sqft = none` when the field is null, missing or empty (JS falsy). -/
structure RawListing where
  id : Nat
  title : String
  price : Nat
  address : String
  bedrooms : Nat
  bathrooms : Nat
  sqft : Option Nat
  lat : Rat
  lng : Rat
  type : String
  amenities : List String
  deriving DecidableEq

/-- The per-record parsing step of `fetchListings` (app.js lines 112–118):
spread the record and normalize the numeric fields; a falsy sqft stays
`null`. -/
def parseListing (r : RawListing) : Listing :=
  ⟨r.id, r.title, r.price, r.address, r.bedrooms, r.bathrooms, r.sqft,
   r.lat, r.lng, r.type, r.amenities⟩

/-- Outcome of the awaited `fetch`: either the promise rejected (network
error) or a response arrived with an HTTP status and a decoded JSON body. -/
inductive FetchOutcome where
  | networkError (msg : String)
  | response (status : Nat) (body : List RawListing)

/-- `Response.ok` of the Fetch standard: status in the range 200–299. -/
def responseOk (status : Nat) : Bool := decide (200 ≤ status) && decide (status < 300)

/-- Control flow of `fetchListings` (app.js lines 86–138): a non-ok status
throws, and the surrounding try/catch turns every failure — network error or
thrown HTTP error — into an empty collection; a successful response is
parsed record by record. -/
def fetchListings (o : FetchOutcome) : List Listing :=
  match o with
  | .networkError _ => []
  | .response status body =>
    if responseOk status then body.map parseListing else []

/-- A fetch outcome that takes the failure path of `fetchListings`: the
promise rejected, or the response status is outside 2xx. -/
def fetchFailed (o : FetchOutcome) : Bool :=
  match o with
  | .networkError _ => true
  | .response status _ => !responseOk status

/-- A sample raw API record (first record of the demo data set). -/
def demoRaw : RawListing :=
  ⟨1, "Modern Studio Apartment", 1350, "9145 Reseda Blvd, Northridge, CA 91324",
   0, 1, some 425, 0, 0, "Studio", ["Parking", "Laundry", "A/C"]⟩

/-- A filter state that differs from the defaults only in the sqft upper
bound. -/
def sqftMaxOnly (m : Nat) : FilterState := ⟨"", [], 0, 0, 0, none, 0, some m, []⟩

/-- A sample listing whose optional sqft is absent (`null` from the API). -/
def demoNullSqft : Listing :=
  ⟨7, "Room Without Area", 900, "7240 Lindley Ave, Reseda, CA 91335",
   1, 1, none, 0, 0, "Apartment", []⟩

/-- A listing whose street number contains "91324" while its address ends in
the different zip code 90210. -/
def badZipListing : Listing :=
  ⟨42, "Zip Trap House", 1000, "91324 Elm St, Los Angeles, CA 90210",
   1, 1, some 500, 0, 0, "House", []⟩

lemma if_false_chain (c b : Bool) : (if c then false else b) = (!c && b) := by
  cases c <;> simp

lemma exceedsMax_eq_false_iff (v : Nat) (m : Option Nat) :
    exceedsMax v m = false ↔ withinMax v m := by
  cases m <;> simp [exceedsMax, withinMax, Nat.not_lt]

lemma guard_not_eq_false (b c : Bool) : ((b && !c) = false) ↔ (b = true → c = true) := by
  cases b <;> cases c <;> simp

lemma guard_and_eq_false (b c : Bool) : ((b && c) = false) ↔ (b = true → c = false) := by
  cases b <;> cases c <;> simp

lemma contains_eq_true_iff (l : List String) (a : String) :
    l.contains a = true ↔ a ∈ l := by
  simp [List.contains, List.elem_iff]

/-- Characterisation of the guard chain of `passes` as a simultaneous
conjunction, one conjunct per filter dimension, in terms of the stored
search query. -/
theorem passes_eq_true_iff (F : FilterState) (l : Listing) :
    passes F l = true ↔
      (F.searchQuery ≠ "" →
        (strContains (lowerStr (parseCity l.address)) F.searchQuery = true ∨
         strContains (parseZip l.address) F.searchQuery = true ∨
         strContains (lowerStr l.address) F.searchQuery = true)) ∧
      (F.types ≠ [] → l.type ∈ F.types) ∧
      F.minBeds ≤ l.bedrooms ∧
      F.minBaths ≤ l.bathrooms ∧
      F.priceMin ≤ l.price ∧
      withinMax l.price F.priceMax ∧
      F.sqftMin ≤ sqftNum l ∧
      withinMax (sqftNum l) F.sqftMax ∧
      (∀ a ∈ F.amenities, a ∈ l.amenities) := by
  unfold passes
  simp only [if_false_chain, Bool.and_eq_true, Bool.not_eq_true']
  refine and_congr ?_ (and_congr ?_ (and_congr ?_ (and_congr ?_ (and_congr ?_
    (and_congr ?_ (and_congr ?_ (and_congr ?_ ?_)))))))
  · unfold searchGuard
    rw [guard_not_eq_false]
    simp only [bne_iff_ne, ne_eq, Bool.or_eq_true, or_assoc]
  · unfold typeGuard
    rw [guard_not_eq_false]
    simp only [bne_iff_ne, ne_eq, List.length_eq_zero, contains_eq_true_iff]
  · simp [Nat.not_lt]
  · simp [Nat.not_lt]
  · simp [Nat.not_lt]
  · exact exceedsMax_eq_false_iff _ _
  · simp [Nat.not_lt]
  · exact exceedsMax_eq_false_iff _ _
  · unfold amenityGuard
    simp only [Bool.and_true, guard_and_eq_false, bne_iff_ne, ne_eq,
      List.length_eq_zero, List.any_eq_false, Bool.not_eq_true',
      Bool.not_eq_false, contains_eq_true_iff]
    constructor
    · rintro ⟨h, -⟩ a ha
      by_cases he : F.amenities = []
      · rw [he] at ha
        cases ha
      · exact h he a ha
    · exact fun h => ⟨fun _ => h, trivial⟩

/-- C3: after `_resetAll` restores the default filter state, `applyFilters`
is the identity — every listing passes the empty search, the empty category
and amenity sets, the zero minimums, and the `[0, Infinity)` ranges. -/
theorem applyFilters_resetAll_id (ls : List Listing) :
    applyFilters resetAllState ls = ls := by
  unfold applyFilters
  rw [List.filter_eq_self]
  intro l _
  rw [passes_eq_true_iff]
  exact ⟨fun h => absurd rfl h, fun h => absurd rfl h, Nat.zero_le _,
    Nat.zero_le _, Nat.zero_le _, trivial, Nat.zero_le _, trivial,
    fun a ha => by cases ha⟩

/-- C1: `applyFilters` includes a listing of its input iff the listing
satisfies all seven predicate rules of spec section 4.2 simultaneously. The
second hypothesis records the invariant, maintained by every assignment to
`state.searchQuery` in the source, that the stored query is already
lower-cased. -/
theorem mem_applyFilters_iff_rules (F : FilterState) (l : Listing)
    (ls : List Listing) (hmem : l ∈ ls)
    (hlower : lowerStr F.searchQuery = F.searchQuery) :
    l ∈ applyFilters F ls ↔ rulesPass F l := by
  unfold applyFilters rulesPass
  rw [List.mem_filter, hlower]
  simp only [hmem, true_and]
  rw [passes_eq_true_iff]
  constructor
  · rintro ⟨h1, h2, h3, h4, h5, h6, h7, h8, h9⟩
    exact ⟨h1, h2, h3, h4, ⟨h5, h6⟩, ⟨h7, h8⟩, fun _ => h9⟩
  · rintro ⟨h1, h2, h3, h4, ⟨h5, h6⟩, ⟨h7, h8⟩, h9⟩
    refine ⟨h1, h2, h3, h4, h5, h6, h7, h8, fun a ha => ?_⟩
    by_cases he : F.amenities = []
    · rw [he] at ha
      cases ha
    · exact h9 he a ha

/-- Witness for C1 at the sample listing and a lower-cased city query. -/
theorem mem_applyFilters_iff_rules_witness :
    demoListing ∈ applyFilters (searchOnly "northridge") [demoListing] :=
  (mem_applyFilters_iff_rules (searchOnly "northridge") demoListing
    [demoListing] (List.mem_singleton.mpr rfl) (by decide)).mpr
    ⟨fun _ => Or.inl (by decide), fun h => absurd rfl h, by decide, by decide,
     ⟨by decide, trivial⟩, ⟨by decide, trivial⟩, fun h => absurd rfl h⟩

/-- C9: the output of `applyFilters` is a subsequence of its input (elements
come from the input in their original order, nothing is synthesized), and no
element's multiplicity grows. The JS `Array.prototype.filter` allocates a new
array, leaving the input untouched; the embedding is a pure function. -/
theorem applyFilters_sublist (F : FilterState) (ls : List Listing) :
    (applyFilters F ls).Sublist ls ∧
      ∀ x : Listing, (applyFilters F ls).count x ≤ ls.count x :=
  ⟨List.filter_sublist ls, fun x => (List.filter_sublist ls).count_le x⟩

/-- C2: an id appearing in the filtered viewport-restricted listings also
appears in `getPassingIds` evaluated over the entire collection under the
same filter state. -/
theorem getPassingIds_superset_of_visible (F : FilterState)
    (boundsContains : Rat → Rat → Bool) (allListings : List Listing) (i : Nat)
    (h : i ∈ getPassingIds F (getVisibleListings boundsContains allListings)) :
    i ∈ getPassingIds F allListings := by
  simp only [getPassingIds, applyFilters, getVisibleListings, List.mem_map,
    List.mem_filter] at h ⊢
  obtain ⟨l, ⟨⟨hl, _⟩, hp⟩, hid⟩ := h
  exact ⟨l, ⟨hl, hp⟩, hid⟩

/-- Witness for C2 with an all-containing viewport and the sample listing. -/
theorem getPassingIds_superset_of_visible_witness :
    demoListing.id ∈ getPassingIds initialState [demoListing] :=
  getPassingIds_superset_of_visible initialState (fun _ _ => true)
    [demoListing] demoListing.id (by decide)

lemma priceLE_trans (a b c : Listing) :
    (fun x y : Listing => decide (x.price ≤ y.price)) a b →
    (fun x y : Listing => decide (x.price ≤ y.price)) b c →
    (fun x y : Listing => decide (x.price ≤ y.price)) a c := by
  simp only [decide_eq_true_eq]
  omega

lemma priceLE_total (a b : Listing) :
    ((fun x y : Listing => decide (x.price ≤ y.price)) a b ||
     (fun x y : Listing => decide (x.price ≤ y.price)) b a) := by
  simp only [Bool.or_eq_true, decide_eq_true_eq]
  exact Nat.le_total a.price b.price

/-- C4: the card order is a permutation of the input, sorted ascending by
price, and stable — two listings with equal price occurring in the input (as
the two-element subsequence `[a, b]`) keep that relative order in the
output. -/
theorem renderOrder_sorted_stable (ls : List Listing) :
    (renderOrder ls).Perm ls ∧
    (renderOrder ls).Pairwise (fun a b => a.price ≤ b.price) ∧
    (∀ a b : Listing, a.price = b.price → ([a, b] : List Listing).Sublist ls →
      ([a, b] : List Listing).Sublist (renderOrder ls)) := by
  refine ⟨List.mergeSort_perm ls _, ?_, ?_⟩
  · have h := List.sorted_mergeSort priceLE_trans priceLE_total ls
    exact h.imp (fun hab => by simpa using hab)
  · intro a b hab hsub
    exact List.pair_sublist_mergeSort priceLE_trans priceLE_total
      (by simpa using Nat.le_of_eq hab) hsub

/-- Witness for C4: the price-tied sample listings keep their input order in
the rendered card order. -/
theorem renderOrder_sorted_stable_witness :
    ([demoListing, demoListingTie] : List Listing).Sublist
      (renderOrder [demoListing2, demoListing, demoListingTie]) :=
  (renderOrder_sorted_stable [demoListing2, demoListing, demoListingTie]).2.2
    demoListing demoListingTie rfl
    (List.Sublist.cons demoListing2 (List.Sublist.refl _))

/-- C6: three text-input events inside one 400 ms window produce exactly one
fired search callback, at 400 ms after the last event and reading that
event's value; the two earlier timers are cancelled before they can fire
(the mechanism keeps at most one pending timer by construction). -/
theorem debounce_three_events (t1 t2 t3 : Nat) (v1 v2 v3 : String)
    (h12 : t1 ≤ t2) (h23 : t2 ≤ t3) (hw : t3 < t1 + 400) :
    runDebounce [(t1, v1), (t2, v2), (t3, v3)] = [(t3 + 400, v3)] := by
  have hc2 : ¬ (t1 + 400 ≤ t2) := by omega
  have hc3 : ¬ (t2 + 400 ≤ t3) := by omega
  simp only [runDebounce, List.foldl, debounceStep, hc2, hc3, if_false,
    reduceIte]
  simp

/-- Witness for C6 at events 0 ms, 100 ms, 200 ms. -/
theorem debounce_three_events_witness :
    runDebounce [(0, "n"), (100, "no"), (200, "nor")] = [(600, "nor")] :=
  debounce_three_events 0 100 200 "n" "no" "nor" (by decide) (by decide)
    (by decide)

lemma sin_sq_swap (x y : ℝ) :
    Real.sin ((x - y) * Real.pi / 180 / 2) ^ 2 =
      Real.sin ((y - x) * Real.pi / 180 / 2) ^ 2 := by
  rw [show (x - y) * Real.pi / 180 / 2 = -((y - x) * Real.pi / 180 / 2) from by
    ring, Real.sin_neg]
  ring

lemma haversineA_symm (lat1 lng1 lat2 lng2 : ℝ) :
    haversineA lat1 lng1 lat2 lng2 = haversineA lat2 lng2 lat1 lng1 := by
  unfold haversineA toRad
  rw [sin_sq_swap lat2 lat1, sin_sq_swap lng2 lng1]
  ring

lemma haversineA_self (lat lng : ℝ) : haversineA lat lng lat lng = 0 := by
  unfold haversineA toRad
  simp [sub_self]

/-- C7: the haversine distance (miles, Earth radius 3958.8) is symmetric in
its two coordinate pairs, and the distance from any point to itself is 0. -/
theorem haversine_symm_and_self_zero :
    (∀ lat1 lng1 lat2 lng2 : ℝ,
      haversineDistanceMi lat1 lng1 lat2 lng2 =
        haversineDistanceMi lat2 lng2 lat1 lng1) ∧
    (∀ lat lng : ℝ, haversineDistanceMi lat lng lat lng = 0) := by
  constructor
  · intro lat1 lng1 lat2 lng2
    unfold haversineDistanceMi
    rw [haversineA_symm]
  · intro lat lng
    unfold haversineDistanceMi atan2
    rw [haversineA_self, Real.sqrt_zero, sub_zero, Real.sqrt_one]
    rw [show (⟨1, 0⟩ : Complex) = 1 from Complex.ext rfl rfl]
    rw [Complex.arg_one, mul_zero]

/-- C8: whenever the initial listings fetch fails — the promise rejects with
a network error, or the response status is outside 2xx — `fetchListings`
returns the empty collection instead of propagating the error. -/
theorem fetchListings_empty_on_failure (o : FetchOutcome)
    (h : fetchFailed o = true) : fetchListings o = [] := by
  cases o with
  | networkError m => rfl
  | response status body =>
    simp only [fetchFailed, Bool.not_eq_true'] at h
    simp [fetchListings, h]

/-- Witness for C8 at an HTTP 500 response carrying a non-empty body. -/
theorem fetchListings_empty_on_failure_witness :
    fetchListings (.response 500 [demoRaw]) = [] :=
  fetchListings_empty_on_failure (.response 500 [demoRaw]) (by decide)

/-- C10: a listing whose sqft is null is treated by the sqft range checks as
area 0 — it passes the default filter and any filter that only sets a sqft
upper bound, and is rejected by every filter state with a positive sqft
lower bound. -/
theorem sqft_null_as_zero (l : Listing) (h : l.sqft = none) :
    passes initialState l = true ∧
    (∀ m : Nat, passes (sqftMaxOnly m) l = true) ∧
    (∀ F : FilterState, 0 < F.sqftMin → passes F l = false) := by
  have hz : sqftNum l = 0 := by simp [sqftNum, h]
  refine ⟨?_, ?_, ?_⟩
  · rw [passes_eq_true_iff]
    exact ⟨fun hq => absurd rfl hq, fun ht => absurd rfl ht, Nat.zero_le _,
      Nat.zero_le _, Nat.zero_le _, trivial, Nat.zero_le _, trivial,
      fun a ha => by cases ha⟩
  · intro m
    rw [passes_eq_true_iff]
    refine ⟨fun hq => absurd rfl hq, fun ht => absurd rfl ht, Nat.zero_le _,
      Nat.zero_le _, Nat.zero_le _, trivial, Nat.zero_le _, ?_,
      fun a ha => by cases ha⟩
    rw [hz]
    exact Nat.zero_le m
  · intro F hmin
    rw [← Bool.not_eq_true, passes_eq_true_iff]
    rintro ⟨-, -, -, -, -, -, h7, -, -⟩
    rw [hz] at h7
    omega

/-- Witness for C10 at a concrete null-sqft listing, with sqft bounds 100
(upper only) and 5 (lower). -/
theorem sqft_null_as_zero_witness :
    passes initialState demoNullSqft = true ∧
    passes (sqftMaxOnly 100) demoNullSqft = true ∧
    passes ⟨"", [], 0, 0, 0, none, 5, none, []⟩ demoNullSqft = false := by
  obtain ⟨h1, h2, h3⟩ := sqft_null_as_zero demoNullSqft rfl
  exact ⟨h1, h2 100, h3 ⟨"", [], 0, 0, 0, none, 5, none, []⟩ (by decide)⟩

lemma strContains_iff (s pat : String) :
    strContains s pat = true ↔ pat.data <:+: s.data := by
  unfold strContains
  exact decide_eq_true_iff

lemma splitOnComma_shape (l : List Char) :
    ∃ h t, splitOnComma l = h :: t ∧ h <+: l ∧ ∀ c ∈ t, c <:+: l := by
  induction l with
  | nil => exact ⟨[], [], rfl, List.nil_prefix, by simp⟩
  | cons x xs ih =>
    obtain ⟨h, t, heq, hpre, htail⟩ := ih
    by_cases hx : x = ','
    · refine ⟨[], splitOnComma xs, by simp [splitOnComma, hx], List.nil_prefix, ?_⟩
      intro c hc
      rw [heq] at hc
      rcases List.mem_cons.mp hc with rfl | hc
      · exact List.infix_cons hpre.isInfix
      · exact List.infix_cons (htail c hc)
    · refine ⟨x :: h, t, by simp [splitOnComma, hx, heq],
        List.cons_prefix_cons.mpr ⟨rfl, hpre⟩, ?_⟩
      intro c hc
      exact List.infix_cons (htail c hc)

lemma parseCity_infix_addr (a : String) : (parseCity a).data <:+: a.data := by
  unfold parseCity
  by_cases hlen : 2 ≤ (splitOnComma a.data).length
  · rw [if_pos hlen]
    obtain ⟨h, t, heq, hpre, htail⟩ := splitOnComma_shape a.data
    rw [heq] at hlen ⊢
    cases t with
    | nil => simp at hlen
    | cons c t2 =>
      have hget : (h :: c :: t2).getD 1 [] = c := rfl
      rw [hget]
      have h1 : ((c.dropWhile isSpace).rdropWhile isSpace) <:+: c :=
        ( List.rdropWhile_prefix isSpace (c.dropWhile isSpace)).isInfix.trans
          ( List.dropWhile_suffix isSpace).isInfix
      exact h1.trans (htail c (List.mem_cons_self c t2))
  · rw [if_neg hlen]
    exact List.nil_infix

lemma parseZip_suffix_addr (a : String) : (parseZip a).data <:+ a.data := by
  unfold parseZip
  split
  · exact List.drop_suffix _ _
  · exact List.nil_suffix

lemma parseZip_of_endsWith (a : String)
    (h : ("91324" : String).data <:+ a.data) : parseZip a = "91324" := by
  obtain ⟨s, hs⟩ := h
  have h5 : ("91324" : String).data.length = 5 := by decide
  have hdigits : ("91324" : String).data.all Char.isDigit = true := by decide
  unfold parseZip
  rw [← hs]
  have hlen : (s ++ ("91324" : String).data).length - 5 = s.length := by
    simp [List.length_append, h5]
  rw [hlen, List.drop_left]
  rw [if_pos ⟨by simp [List.length_append, h5], hdigits⟩]

/-- Counterexample to C5 as stated: this listing's address ends in the
5-digit zip "90210", different from "91324", yet the evaluator passes it
under the search query "91324", because the query also occurs in the full
address (as the street number). -/
theorem search_91324_counterexample :
    parseZip badZipListing.address = "90210" ∧
    ("90210" : String) ≠ "91324" ∧
    passes (searchOnly "91324") badZipListing = true :=
  ⟨by decide, by decide, by decide⟩

/-- C5 (amended): with search query "91324" and all other filters default,
every listing whose address ends in "91324" passes; and a listing whose
lower-cased address does not contain "91324" anywhere (in particular, one
ending in a different 5-digit zip with no other occurrence of "91324")
does not pass. -/
theorem search_91324_passes_iff (l : Listing) :
    (("91324" : String).data <:+ l.address.data →
      passes (searchOnly "91324") l = true) ∧
    (¬ ("91324" : String).data <:+: (lowerStr l.address).data →
      passes (searchOnly "91324") l = false) := by
  constructor
  · intro hsuf
    rw [passes_eq_true_iff]
    refine ⟨fun _ => Or.inr (Or.inl ?_), fun ht => absurd rfl ht, Nat.zero_le _,
      Nat.zero_le _, Nat.zero_le _, trivial, Nat.zero_le _, trivial,
      fun a ha => by cases ha⟩
    rw [parseZip_of_endsWith l.address hsuf]
    decide
  · intro hncon
    rw [← Bool.not_eq_true, passes_eq_true_iff]
    rintro ⟨h1, -⟩
    rcases h1 (by decide) with hc | hz | ha
    · rw [strContains_iff] at hc
      exact hncon (hc.trans ((parseCity_infix_addr l.address).map Char.toLower))
    · rw [strContains_iff] at hz
      have h2 : ("91324" : String).data <:+: l.address.data :=
        hz.trans (parseZip_suffix_addr l.address).isInfix
      have h3 := h2.map Char.toLower
      rw [show ("91324" : String).data.map Char.toLower = ("91324" : String).data
        from by decide] at h3
      exact hncon h3
    · rw [strContains_iff] at ha
      exact hncon ha

/-- Witness for the amended C5: a demo listing ending in "91324" passes, and
a demo listing whose address nowhere contains "91324" does not. -/
theorem search_91324_passes_iff_witness :
    passes (searchOnly "91324") demoListing = true ∧
    passes (searchOnly "91324") demoListing2 = false :=
  ⟨(search_91324_passes_iff demoListing).1 (by decide),
   (search_91324_passes_iff demoListing2).2 (by decide)⟩

end DemoMap
